import Mathlib

/-!
# Verification of the bulk-load payload encoder (`src/bulk-load.js`)

A shallow embedding of the `BulkLoad` class. JavaScript runtime values that
matter to the control flow (truthiness, `typeof`, `undefined` defaulting) are
modelled by the small `JsVal` type; mutable instance state is threaded
explicitly as a `BulkLoad` structure; a JavaScript `throw` inside a method is
modelled by returning the state as mutated up to the throw point together with
an `Except.error`. Machine bytes are `Nat` values reduced modulo 256 at each
write, and buffers are `List Nat`.

The pluggable per-SQL-type descriptor is modelled as a record of functions
(`TypeDescriptor`); its value-encoding capability is fallible
(`Except String (List Nat)`), mirroring a descriptor that may throw.
-/

/-- A JavaScript runtime value, restricted to the shapes that the bulk-load
code inspects: `undefined`, `null`, booleans, numbers, strings, arrays and
plain objects (modelled as association lists). -/
inductive JsVal where
  | undef
  | null
  | bool (b : Bool)
  | num (n : Int)
  | str (s : String)
  | arr (xs : List JsVal)
  | obj (fields : List (String × JsVal))

/-- JavaScript truthiness (`if (v)`). `NaN` is not modelled. -/
def jsTruthy : JsVal → Bool
  | JsVal.undef => false
  | JsVal.null => false
  | JsVal.bool b => b
  | JsVal.num n => n != 0
  | JsVal.str s => s != ""
  | JsVal.arr _ => true
  | JsVal.obj _ => true

/-- `typeof v === 'object'`: true for `null`, arrays and plain objects. -/
def jsTypeofObject : JsVal → Bool
  | JsVal.null => true
  | JsVal.arr _ => true
  | JsVal.obj _ => true
  | _ => false

/-- `typeof v === 'boolean'`. -/
def jsIsBoolean : JsVal → Bool
  | JsVal.bool _ => true
  | _ => false

/-- Destructuring default: `{ x = dflt }` replaces only `undefined`. -/
def jsDefault (v : JsVal) (dflt : JsVal) : JsVal :=
  match v with
  | JsVal.undef => dflt
  | _ => v

/-- Read a boolean out of a value known to be a boolean (`false` otherwise). -/
def jsToBool : JsVal → Bool
  | JsVal.bool b => b
  | _ => false

/-- A constructor options field is acceptable when it is absent (`undefined`)
or a boolean; used to state claim C8. -/
def okField : JsVal → Bool
  | JsVal.undef => true
  | JsVal.bool _ => true
  | _ => false

/-- The effective boolean a constructor options field ends up storing:
its boolean value, or `false` when absent; used to state claim C8. -/
def optFlag : JsVal → Bool
  | JsVal.bool b => b
  | _ => false

/-- Property lookup `row[key]` on a plain object, `undefined` when missing. -/
def jsGet (row : JsVal) (key : String) : JsVal :=
  match row with
  | JsVal.obj fields =>
    (((fields.find? (fun p => p.1 == key)).map (fun p => p.2)).getD JsVal.undef)
  | _ => JsVal.undef

/-- JavaScript `<` on strings: lexicographic comparison of code units. -/
def jsStrLtChars : List Char → List Char → Bool
  | [], [] => false
  | [], _ :: _ => true
  | _ :: _, [] => false
  | a :: as, b :: bs =>
    if a.toNat < b.toNat then true
    else if b.toNat < a.toNat then false
    else jsStrLtChars as bs

/-- JavaScript string comparison `a < b`, used on TDS version strings such as
`"7_1" < "7_2"`. -/
def jsStringLt (a b : String) : Bool :=
  jsStrLtChars a.data b.data

/-- Modelled from the spec: `WritableTrackingBuffer.writeUInt8` from
`src/tracking-buffer/writable-tracking-buffer.js`, which is required by
`bulk-load.js` but not included in the sources. The buffer is append-only;
a write appends the value's bytes. -/
def writeUInt8 (buf : List Nat) (value : Nat) : List Nat :=
  buf ++ [value % 256]

/-- Modelled from the spec: `WritableTrackingBuffer.writeUInt16LE`
(2-byte little-endian write, appended to the buffer). -/
def writeUInt16LE (buf : List Nat) (value : Nat) : List Nat :=
  buf ++ [value % 256, value / 256 % 256]

/-- Modelled from the spec: `WritableTrackingBuffer.writeUInt32LE`
(4-byte little-endian write, appended to the buffer). -/
def writeUInt32LE (buf : List Nat) (value : Nat) : List Nat :=
  buf ++ [value % 256, value / 256 % 256, value / 65536 % 256, value / 16777216 % 256]

/-- Modelled from the spec: `WritableTrackingBuffer.writeBVarchar` with
encoding `ucs2`: a one-byte length prefix (number of UTF-16 units) followed by
each unit as two little-endian bytes. Only BMP strings are modelled. -/
def writeBVarchar (buf : List Nat) (s : String) : List Nat :=
  buf ++ [s.length % 256] ++ (s.data.flatMap (fun ch => [ch.toNat % 256, ch.toNat / 256 % 256]))

namespace TOKEN_TYPE

/-- Modelled from the spec: the "row" token-type marker byte from
`src/token/token.js` (required by `bulk-load.js` but not under `src/`).
The spec fixes only that it is a one-byte marker; the value is the standard
TDS ROW marker. -/
def ROW : Nat := 0xD1

/-- Modelled from the spec: the "column metadata" token-type marker byte from
`src/token/token.js` (standard TDS COLMETADATA marker). -/
def COLMETADATA : Nat := 0x81

/-- Modelled from the spec: the "done/completion" token-type marker byte from
`src/token/token.js` (standard TDS DONE marker). -/
def DONE : Nat := 0xFD

end TOKEN_TYPE

namespace FLAGS

def nullable : Nat := 1

def caseSen : Nat := 2

def updateableReadWrite : Nat := 4

def updateableUnknown : Nat := 8

def identity : Nat := 16

def computed : Nat := 32

def fixedLenCLRType : Nat := 256

def sparseColumnSet : Nat := 1024

def hidden : Nat := 8192

def key : Nat := 16384

def nullableUnknown : Nat := 32768

end FLAGS

namespace DONE_STATUS

def FINAL : Nat := 0x00

def MORE : Nat := 0x1

def ERROR : Nat := 0x2

def INXACT : Nat := 0x4

def COUNT : Nat := 0x10

def ATTN : Nat := 0x20

def SRVERROR : Nat := 0x100

end DONE_STATUS

/-- Connection configuration visible to the bulk-load code: only the TDS
protocol version string is read. -/
structure ConnOptions where
  tdsVersion : String

/-- The four validated boolean bulk options (`InternalOptions` in the source). -/
structure InternalOptions where
  checkConstraints : Bool
  fireTriggers : Bool
  keepNulls : Bool
  lockTable : Bool

/-- The raw options record passed to the constructor, before destructuring
defaults and `typeof` validation; each field is an arbitrary JavaScript value,
`undefined` when absent. -/
structure RawOptions where
  checkConstraints : JsVal := JsVal.undef
  fireTriggers : JsVal := JsVal.undef
  keepNulls : JsVal := JsVal.undef
  lockTable : JsVal := JsVal.undef

/-- The per-column options record accepted by `addColumn` (`ColumnOptions` in
the source); `none` models an absent / `undefined` property. -/
structure ColumnOptions where
  output : Option Bool := none
  length : Option Int := none
  precision : Option Int := none
  scale : Option Int := none
  objName : Option String := none
  nullable : Option Bool := none

/-- The data fields of a registered column (the `Column` record of the source
minus its `type` field, split out so the type descriptor's capabilities can
take the column as an argument). `nullable` is `Option Bool` because the
metadata encoder distinguishes `undefined` from booleans at runtime. -/
structure ColMeta where
  name : String
  value : JsVal
  output : Bool
  length : Option Int
  precision : Option Int
  scale : Option Int
  objName : String
  nullable : Option Bool

/-- The `{length, scale, precision, value}` record handed to a type
descriptor's value-encoding capability by `addRow`. -/
structure ParamData where
  length : Option Int
  scale : Option Int
  precision : Option Int
  value : JsVal

/-- The pluggable per-SQL-type capability object. `writeParameterData` returns
the bytes it would append to the row buffer, or an error when the value cannot
be encoded (a descriptor that throws). -/
structure TypeDescriptor where
  id : Nat
  hasPrecision : Bool
  hasScale : Bool
  resolveLength : Option (ColMeta → Int)
  resolvePrecision : Option (ColMeta → Int)
  resolveScale : Option (ColMeta → Int)
  writeTypeInfo : ColMeta → ConnOptions → List Nat
  writeParameterData : ParamData → ConnOptions → Except String (List Nat)
  declaration : ColMeta → String

/-- A registered column: its type descriptor plus its data fields. -/
structure Column where
  type : TypeDescriptor
  meta : ColMeta

/-- The mutable state of a `BulkLoad` instance (the `callback` field, a
function irrelevant to payload construction, is omitted). -/
structure BulkLoad where
  error : Option String
  canceled : Bool
  timeout : Option Int
  table : String
  options : ConnOptions
  columns : List Column
  columnsByName : List (String × Column)
  firstRowWritten : Bool
  rowsData : List Nat
  bulkOptions : InternalOptions

/-- JavaScript object property assignment `m[k] = v`: replaces the value in
place when the key exists, appends otherwise. -/
def assocSet (m : List (String × Column)) (k : String) (v : Column) : List (String × Column) :=
  if m.any (fun p => p.1 == k) then
    m.map (fun p => if p.1 == k then (k, v) else p)
  else
    m ++ [(k, v)]

/-- The `BulkLoad` constructor: destructures the four bulk options with
default `false`, validates each with `typeof x !== 'boolean'`, and initializes
the instance state. A failed check throws a `TypeError`, modelled as
`Except.error` carrying the message. -/
def make (table : String) (connectionOptions : ConnOptions) (o : RawOptions) : Except String BulkLoad :=
  let checkConstraints := jsDefault o.checkConstraints (JsVal.bool false)
  let fireTriggers := jsDefault o.fireTriggers (JsVal.bool false)
  let keepNulls := jsDefault o.keepNulls (JsVal.bool false)
  let lockTable := jsDefault o.lockTable (JsVal.bool false)
  if jsIsBoolean checkConstraints = false then
    Except.error "The \"options.checkConstraints\" property must be of type boolean."
  else if jsIsBoolean fireTriggers = false then
    Except.error "The \"options.fireTriggers\" property must be of type boolean."
  else if jsIsBoolean keepNulls = false then
    Except.error "The \"options.keepNulls\" property must be of type boolean."
  else if jsIsBoolean lockTable = false then
    Except.error "The \"options.lockTable\" property must be of type boolean."
  else
    Except.ok {
      error := none
      canceled := false
      timeout := none
      table := table
      options := connectionOptions
      columns := []
      columnsByName := []
      firstRowWritten := false
      rowsData := []
      bulkOptions := {
        checkConstraints := jsToBool checkConstraints
        fireTriggers := jsToBool fireTriggers
        keepNulls := jsToBool keepNulls
        lockTable := jsToBool lockTable } }

/-- `addColumn` length resolution: when the type id has category bits `0x20`
(`(type.id & 0x30) === 0x20`), an unset length, and the type has a
length-resolution capability, resolve it. -/
def resolveColumnLength (type : TypeDescriptor) (column : ColMeta) : ColMeta :=
  if (type.id &&& 0x30) = 0x20 ∧ column.length = none then
    match type.resolveLength with
    | some f => { column with length := some (f column) }
    | none => column
  else
    column

/-- `addColumn` precision resolution, gated on `type.hasPrecision`. -/
def resolveColumnPrecision (type : TypeDescriptor) (column : ColMeta) : ColMeta :=
  if type.hasPrecision ∧ column.precision = none then
    match type.resolvePrecision with
    | some f => { column with precision := some (f column) }
    | none => column
  else
    column

/-- `addColumn` scale resolution, gated on `type.hasScale`. -/
def resolveColumnScale (type : TypeDescriptor) (column : ColMeta) : ColMeta :=
  if type.hasScale ∧ column.scale = none then
    match type.resolveScale with
    | some f => { column with scale := some (f column) }
    | none => column
  else
    column

/-- `BulkLoad.addColumn`: refuses (throwing, with the state untouched) once
the first row has been written; otherwise builds the column record with
destructuring defaults (`output = false`, `objName = name`, `nullable = true`),
resolves length/precision/scale, appends to `columns` and indexes it in
`columnsByName`. -/
def addColumn (bl : BulkLoad) (name : String) (type : TypeDescriptor) (opts : ColumnOptions) : BulkLoad × Except String Unit :=
  if bl.firstRowWritten then
    (bl, Except.error "Columns cannot be added to bulk insert after the first row has been written.")
  else
    let column : ColMeta := {
      name := name
      value := JsVal.null
      output := opts.output.getD false
      length := opts.length
      precision := opts.precision
      scale := opts.scale
      objName := opts.objName.getD name
      nullable := some (opts.nullable.getD true) }
    let column := resolveColumnLength type column
    let column := resolveColumnPrecision type column
    let column := resolveColumnScale type column
    let col : Column := { type := type, meta := column }
    ({ bl with
        columns := bl.columns ++ [col]
        columnsByName := assocSet bl.columnsByName name col },
      Except.ok ())

/-- `addRow` argument disambiguation (`input.length > 1 || !input[0] ||
typeof input[0] !== 'object'`): the selected `row` value is either the whole
argument array (positional) or the single argument itself. -/
def addRowSelect (input : List JsVal) : JsVal :=
  let first := input.headD JsVal.undef
  if input.length > 1 ∨ jsTruthy first = false ∨ jsTypeofObject first = false then
    JsVal.arr input
  else
    first

/-- The positional column-writing loop of `addRow`: for each column in
registry order, encode `row[i]` through the type descriptor, appending to the
buffer; a descriptor failure aborts the loop keeping the bytes written so far. -/
def writeColsPositional (options : ConnOptions) : List Column → List JsVal → List Nat → List Nat × Except String Unit
  | [], _, data => (data, Except.ok ())
  | c :: cs, xs, data =>
    match c.type.writeParameterData
        { length := c.meta.length, scale := c.meta.scale,
          precision := c.meta.precision, value := xs.headD JsVal.undef }
        options with
    | Except.error e => (data, Except.error e)
    | Except.ok bytes => writeColsPositional options cs xs.tail (data ++ bytes)

/-- The by-name column-writing loop of `addRow`: like the positional loop but
the value is `row[c.objName]`. -/
def writeColsByName (options : ConnOptions) : List Column → JsVal → List Nat → List Nat × Except String Unit
  | [], _, data => (data, Except.ok ())
  | c :: cs, row, data =>
    match c.type.writeParameterData
        { length := c.meta.length, scale := c.meta.scale,
          precision := c.meta.precision, value := jsGet row c.meta.objName }
        options with
    | Except.error e => (data, Except.error e)
    | Except.ok bytes => writeColsByName options cs row (data ++ bytes)

/-- The `row instanceof Array` dispatch of `addRow`: arrays take the
positional loop, anything else (necessarily a truthy non-array object after
`addRowSelect`) takes the by-name loop. -/
def addRowData (options : ConnOptions) (cols : List Column) (row : JsVal) (data : List Nat) : List Nat × Except String Unit :=
  match row with
  | JsVal.arr xs => writeColsPositional options cols xs data
  | r => writeColsByName options cols r data

/-- `BulkLoad.addRow`: sets `firstRowWritten` as its first action, selects the
row representation, writes the ROW token marker, then writes every column.
On a descriptor failure the returned state keeps the bytes written before the
failure (a JavaScript throw does not undo prior buffer writes). -/
def addRow (bl : BulkLoad) (input : List JsVal) : BulkLoad × Except String Unit :=
  let bl1 := { bl with firstRowWritten := true }
  let dr := addRowData bl1.options bl1.columns (addRowSelect input)
    (writeUInt8 bl1.rowsData TOKEN_TYPE.ROW)
  ({ bl1 with rowsData := dr.1 }, dr.2)

/-- `BulkLoad.getOptionsSql`: collects the enabled option keywords in the
declared order and wraps them in a `WITH (...)` clause, or returns the empty
string when no option is enabled. -/
def getOptionsSql (bl : BulkLoad) : String :=
  let addOptions : List String :=
    (if bl.bulkOptions.checkConstraints then ["CHECK_CONSTRAINTS"] else [])
    ++ (if bl.bulkOptions.fireTriggers then ["FIRE_TRIGGERS"] else [])
    ++ (if bl.bulkOptions.keepNulls then ["KEEP_NULLS"] else [])
    ++ (if bl.bulkOptions.lockTable then ["TABLOCK"] else [])
  if addOptions.length > 0 then
    " WITH (" ++ String.intercalate "," addOptions ++ ")"
  else
    ""

/-- The column-list portion of `getBulkInsertSql` (the loop with a `", "`
separator before every column but the first). -/
def bulkInsertColumnsSqlAux : List Column → Bool → String
  | [], _ => ""
  | c :: cs, isFirst =>
    (if isFirst then "" else ", ") ++ "[" ++ c.meta.name ++ "] "
      ++ c.type.declaration c.meta ++ bulkInsertColumnsSqlAux cs false

/-- `BulkLoad.getBulkInsertSql`: the `insert bulk` command text, ending in the
options clause. -/
def getBulkInsertSql (bl : BulkLoad) : String :=
  "insert bulk " ++ bl.table ++ "(" ++ bulkInsertColumnsSqlAux bl.columns true ++ ")"
    ++ getOptionsSql bl

/-- The column-list portion of `getTableCreationSql`. -/
def tableCreationColumnsSqlAux : List Column → Bool → String
  | [], _ => ""
  | c :: cs, isFirst =>
    (if isFirst then "" else ",\n") ++ "[" ++ c.meta.name ++ "] "
      ++ c.type.declaration c.meta
      ++ (match c.meta.nullable with
          | some b => " " ++ (if b then "NULL" else "NOT NULL")
          | none => "")
      ++ tableCreationColumnsSqlAux cs false

/-- `BulkLoad.getTableCreationSql`. -/
def getTableCreationSql (bl : BulkLoad) : String :=
  "CREATE TABLE " ++ bl.table ++ "(\n" ++ tableCreationColumnsSqlAux bl.columns true ++ "\n)"

/-- The per-column flags word of `getColMetaData` (source lines 307-312):
base updateable bit, plus the nullable bit when `c.nullable` is truthy, else
the nullable-unknown bit when `c.nullable` is `undefined` on TDS >= 7.2. -/
def colFlags (nullable : Option Bool) (tdsVersion : String) : Nat :=
  let flags := FLAGS.updateableReadWrite
  if nullable.getD false then
    flags ||| FLAGS.nullable
  else if nullable.isNone ∧ jsStringLt tdsVersion "7_2" = false then
    flags ||| FLAGS.nullableUnknown
  else
    flags

/-- `BulkLoad.getColMetaData`: the COLMETADATA token — marker byte, 2-byte LE
column count, then per column a version-dependent zero user-type field, the
2-byte LE flags word, the descriptor's type-info bytes, and the
length-prefixed ucs2 column name. -/
def getColMetaData (bl : BulkLoad) : List Nat :=
  let b := writeUInt8 [] TOKEN_TYPE.COLMETADATA
  let b := writeUInt16LE b bl.columns.length
  bl.columns.foldl (fun b c =>
    let b := if jsStringLt bl.options.tdsVersion "7_2" then writeUInt16LE b 0 else writeUInt32LE b 0
    let b := writeUInt16LE b (colFlags c.meta.nullable bl.options.tdsVersion)
    let b := b ++ c.type.writeTypeInfo c.meta bl.options
    writeBVarchar b c.meta.name) b

/-- The DONE token built inside `getPayload` (source lines 269-279): marker
byte, 2-byte LE status (`DONE_STATUS.FINAL`), 2-byte LE current command
(zero), a 4-byte LE zero row count, and a second 4-byte zero half on
TDS >= 7.2. -/
def doneToken (tdsVersion : String) : List Nat :=
  let b := writeUInt8 [] TOKEN_TYPE.DONE
  let b := writeUInt16LE b DONE_STATUS.FINAL
  let b := writeUInt16LE b 0
  let b := writeUInt32LE b 0
  if jsStringLt tdsVersion "7_2" then b else writeUInt32LE b 0

/-- `BulkLoad.getPayload`: concatenates the COLMETADATA token, the accumulated
row bytes and the DONE token into one buffer allocated at the exact summed
length; the instance state is returned unchanged (the method mutates nothing). -/
def getPayload (bl : BulkLoad) : List Nat × BulkLoad :=
  let metaData := getColMetaData bl
  let rows := bl.rowsData
  let done := doneToken bl.options.tdsVersion
  (metaData ++ rows ++ done, bl)

/-- `BulkLoad.setTimeout`. -/
def setTimeout (bl : BulkLoad) (timeout : Option Int) : BulkLoad :=
  { bl with timeout := timeout }

/-! ## Concrete fixtures used to evaluate the model -/

/-- A connection configured for TDS 7.4 (at or after every threshold). -/
def connEx : ConnOptions := { tdsVersion := "7_4" }

/-- An options record with every field absent. -/
def rawNone : RawOptions := {}

/-- A simple integer-like type descriptor: writes one type-info byte and
encodes a numeric value as its low byte; non-numbers fail. -/
def tyNum : TypeDescriptor := {
  id := 0x26
  hasPrecision := false
  hasScale := false
  resolveLength := none
  resolvePrecision := none
  resolveScale := none
  writeTypeInfo := fun _ _ => [0xA7]
  writeParameterData := fun p _ =>
    match p.value with
    | JsVal.num n => Except.ok [(n % 256).toNat]
    | _ => Except.error "EncodingError"
  declaration := fun _ => "int" }

/-- Like `tyNum`, but its value encoder throws on the value `13`, standing for
a descriptor whose encoding capability fails on a particular value. -/
def tyFussy : TypeDescriptor := { tyNum with
  writeParameterData := fun p _ =>
    match p.value with
    | JsVal.num n =>
      if n = 13 then Except.error "EncodingError: cannot encode value"
      else Except.ok [(n % 256).toNat]
    | _ => Except.error "EncodingError" }

/-- The instance state produced by the constructor for table `"tab"` on TDS
7.4 with every bulk option absent. -/
def blInit : BulkLoad := {
  error := none
  canceled := false
  timeout := none
  table := "tab"
  options := connEx
  columns := []
  columnsByName := []
  firstRowWritten := false
  rowsData := []
  bulkOptions := { checkConstraints := false, fireTriggers := false, keepNulls := false, lockTable := false } }

/-- `blInit` with `fireTriggers` and `lockTable` enabled. -/
def blC7 : BulkLoad := { blInit with
  bulkOptions := { checkConstraints := false, fireTriggers := true, keepNulls := false, lockTable := true } }

/-- Two registered columns: `"a"` of type `tyNum` and `"b"` of type `tyFussy`,
both with all column options absent. -/
def blTwoCols : BulkLoad :=
  (addColumn (addColumn blInit "a" tyNum {}).1 "b" tyFussy {}).1

/-! ## Helper lemmas -/

theorem isBool_default (v : JsVal) :
    jsIsBoolean (jsDefault v (JsVal.bool false)) = okField v := by
  cases v <;> rfl

theorem toBool_default (v : JsVal) :
    jsToBool (jsDefault v (JsVal.bool false)) = optFlag v := by
  cases v <;> rfl

theorem resolveColumnLength_nullable (t : TypeDescriptor) (c : ColMeta) :
    (resolveColumnLength t c).nullable = c.nullable := by
  unfold resolveColumnLength
  split
  · split <;> rfl
  · rfl

theorem resolveColumnPrecision_nullable (t : TypeDescriptor) (c : ColMeta) :
    (resolveColumnPrecision t c).nullable = c.nullable := by
  unfold resolveColumnPrecision
  split
  · split <;> rfl
  · rfl

theorem resolveColumnScale_nullable (t : TypeDescriptor) (c : ColMeta) :
    (resolveColumnScale t c).nullable = c.nullable := by
  unfold resolveColumnScale
  split
  · split <;> rfl
  · rfl

/-! ## Claim theorems -/

/-- C3: after any `addRow` call (with any input, including one whose encoding
failed), the first-row latch is set, and every subsequent `addColumn` call
fails with the state error, returning the state (column registry, name index
and row buffer) unchanged. -/
theorem C3_addColumn_after_row_fails :
    (∀ (bl : BulkLoad) (input : List JsVal), ((addRow bl input).1).firstRowWritten = true)
    ∧ (∀ (bl : BulkLoad) (name : String) (ty : TypeDescriptor) (opts : ColumnOptions),
        bl.firstRowWritten = true →
        addColumn bl name ty opts =
          (bl, Except.error "Columns cannot be added to bulk insert after the first row has been written.")) := by
  constructor
  · intro bl input
    rfl
  · intro bl name ty opts h
    simp [addColumn, h]

/-- Witness for C3: concretely, after `addRow` on the freshly constructed
instance, `addColumn` fails with the state error and leaves the state as it
was. -/
theorem C3_addColumn_after_row_fails_witness :
    addColumn ((addRow blInit []).1) "x" tyNum {} =
      ((addRow blInit []).1,
        Except.error "Columns cannot be added to bulk insert after the first row has been written.") :=
  C3_addColumn_after_row_fails.2 ((addRow blInit []).1) "x" tyNum {} (by rfl)

/-- C9: `addRow` sets the first-row latch unconditionally (even when a type
descriptor fails mid-encoding), an `addColumn` issued after any `addRow` call
fails with the state error, and no operation of the class ever resets the
latch to `false` (`addColumn`, `setTimeout` and `getPayload` leave it
unchanged). -/
theorem C9_first_row_latch :
    (∀ (bl : BulkLoad) (input : List JsVal), ((addRow bl input).1).firstRowWritten = true)
    ∧ (∀ (bl : BulkLoad) (input : List JsVal) (name : String) (ty : TypeDescriptor) (opts : ColumnOptions),
        addColumn ((addRow bl input).1) name ty opts =
          ((addRow bl input).1,
            Except.error "Columns cannot be added to bulk insert after the first row has been written."))
    ∧ (∀ (bl : BulkLoad) (name : String) (ty : TypeDescriptor) (opts : ColumnOptions),
        ((addColumn bl name ty opts).1).firstRowWritten = bl.firstRowWritten)
    ∧ (∀ (bl : BulkLoad) (t : Option Int), (setTimeout bl t).firstRowWritten = bl.firstRowWritten)
    ∧ (∀ bl : BulkLoad, ((getPayload bl).2).firstRowWritten = bl.firstRowWritten) := by
  refine ⟨fun bl input => rfl, fun bl input name ty opts => rfl, ?_, fun bl t => rfl, fun bl => rfl⟩
  intro bl name ty opts
  cases h : bl.firstRowWritten <;> simp [addColumn, h]

/-- C6: `getPayload` mutates nothing (the state it returns is its input), so
calling it twice with no intervening mutation yields byte-identical buffers. -/
theorem C6_payload_idempotent (bl : BulkLoad) :
    (getPayload bl).2 = bl
    ∧ (getPayload ((getPayload bl).2)).1 = (getPayload bl).1 :=
  ⟨rfl, rfl⟩

/-- C5: for every instance state (any registered columns and any accumulated
rows, including none), `getPayload` succeeds (it is total) and its buffer is
exactly the metadata token bytes, then the accumulated row bytes, then the
completion token bytes, with length the sum of the three parts. -/
theorem C5_payload_concat (bl : BulkLoad) :
    (getPayload bl).1 = getColMetaData bl ++ bl.rowsData ++ doneToken bl.options.tdsVersion
    ∧ (getPayload bl).1.length =
        (getColMetaData bl).length + bl.rowsData.length + (doneToken bl.options.tdsVersion).length := by
  refine ⟨rfl, ?_⟩
  simp [getPayload, Nat.add_assoc]

/-- C4: the completion token is the DONE marker, a 2-byte little-endian status
equal to `DONE_STATUS.FINAL = 0`, a 2-byte zero current-command field, and a
zero row count (4 bytes before TDS 7.2, two 4-byte little-endian zero halves
from 7.2 on); it is 9 bytes before the threshold and 13 at or after it, and
the payload always ends with it regardless of how many rows were appended. -/
theorem C4_done_token (v : String) :
    doneToken v =
      (if jsStringLt v "7_2" then [TOKEN_TYPE.DONE, 0, 0, 0, 0, 0, 0, 0, 0]
       else [TOKEN_TYPE.DONE, 0, 0, 0, 0, 0, 0, 0, 0, 0, 0, 0, 0])
    ∧ (doneToken v).length = (if jsStringLt v "7_2" then 9 else 13)
    ∧ DONE_STATUS.FINAL = 0
    ∧ (∀ bl : BulkLoad,
        (getPayload bl).1 = getColMetaData bl ++ bl.rowsData ++ doneToken bl.options.tdsVersion) := by
  refine ⟨?_, ?_, rfl, fun bl => rfl⟩ <;>
    cases h : jsStringLt v "7_2" <;>
      simp [doneToken, h, writeUInt8, writeUInt16LE, writeUInt32LE, TOKEN_TYPE.DONE, DONE_STATUS.FINAL]

/-- C10: in `addRow` disambiguation, a single falsy argument (`null`, `0`,
`""`, `false`, `undefined`) selects the whole argument list as a positional
row (despite `typeof null === 'object'`); a single truthy non-array object is
taken as the by-name mapping; a single array is taken as the positional row
itself; and the array/non-array split is exactly the positional/by-name loop
split. -/
theorem C10_addRow_disambiguation :
    addRowSelect [JsVal.null] = JsVal.arr [JsVal.null]
    ∧ addRowSelect [JsVal.num 0] = JsVal.arr [JsVal.num 0]
    ∧ addRowSelect [JsVal.str ""] = JsVal.arr [JsVal.str ""]
    ∧ addRowSelect [JsVal.bool false] = JsVal.arr [JsVal.bool false]
    ∧ addRowSelect [JsVal.undef] = JsVal.arr [JsVal.undef]
    ∧ (∀ fields, addRowSelect [JsVal.obj fields] = JsVal.obj fields)
    ∧ (∀ xs, addRowSelect [JsVal.arr xs] = JsVal.arr xs)
    ∧ (∀ (options : ConnOptions) (cols : List Column) (xs : List JsVal) (data : List Nat),
        addRowData options cols (JsVal.arr xs) data = writeColsPositional options cols xs data)
    ∧ (∀ (options : ConnOptions) (cols : List Column) (fields : List (String × JsVal)) (data : List Nat),
        addRowData options cols (JsVal.obj fields) data = writeColsByName options cols (JsVal.obj fields) data) := by
  refine ⟨rfl, rfl, rfl, rfl, rfl, fun fields => ?_, fun xs => ?_,
    fun options cols xs data => rfl, fun options cols fields data => rfl⟩ <;>
      simp [addRowSelect, jsTruthy, jsTypeofObject]

/-- C1 counterexample: register a column on TDS 7.4 with the `nullable`
attribute omitted. `addColumn` defaults it to `true`, so the emitted flags
word is 5 = updateable | nullable: the nullable bit is set and the
nullable-unknown bit is clear, contradicting the claim that an omitted
`nullable` yields nullable-unknown set and nullable clear. The full metadata
token is evaluated to pin down the emitted word. -/
theorem C1_omitted_nullable_counterexample :
    (addColumn blInit "a" tyNum {}).2 = Except.ok ()
    ∧ jsStringLt connEx.tdsVersion "7_2" = false
    ∧ ((addColumn blInit "a" tyNum {}).1.columns.map
        (fun c => colFlags c.meta.nullable connEx.tdsVersion)) = [5]
    ∧ getColMetaData (addColumn blInit "a" tyNum {}).1
        = [0x81, 1, 0, 0, 0, 0, 0, 5, 0, 0xA7, 1, 97, 0]
    ∧ ¬ ((5 : Nat) &&& FLAGS.nullableUnknown ≠ 0 ∧ (5 : Nat) &&& FLAGS.nullable = 0) := by
  refine ⟨rfl, rfl, rfl, rfl, ?_⟩
  decide

/-- C1 (amended): every column registered through `addColumn` stores
`nullable = some (given value, defaulting to true when omitted)`; for such a
column the flags word always has the updateable bit set, has the nullable bit
set exactly when the stored value is `true`, and never has the
nullable-unknown bit; the nullable-unknown bit arises only from an
`undefined` stored value (unreachable via `addColumn`) on TDS >= 7.2. -/
theorem C1_flags_amended :
    (∀ (bl : BulkLoad) (name : String) (ty : TypeDescriptor) (opts : ColumnOptions),
      (addColumn bl name ty opts).2 = Except.ok () →
      ((addColumn bl name ty opts).1).columns.map (fun c => c.meta.nullable)
        = bl.columns.map (fun c => c.meta.nullable) ++ [some (opts.nullable.getD true)])
    ∧ (∀ (b : Bool) (v : String),
        colFlags (some b) v &&& FLAGS.updateableReadWrite ≠ 0
        ∧ (colFlags (some b) v &&& FLAGS.nullable ≠ 0 ↔ b = true)
        ∧ colFlags (some b) v &&& FLAGS.nullableUnknown = 0)
    ∧ (∀ v : String, colFlags none v =
        if jsStringLt v "7_2" then FLAGS.updateableReadWrite
        else FLAGS.updateableReadWrite ||| FLAGS.nullableUnknown) := by
  refine ⟨?_, ?_, ?_⟩
  · intro bl name ty opts h
    cases hb : bl.firstRowWritten
    · simp [addColumn, hb, resolveColumnScale_nullable, resolveColumnPrecision_nullable,
        resolveColumnLength_nullable]
    · simp [addColumn, hb] at h
  · intro b v
    cases b <;> simp [colFlags] <;> decide
  · intro v
    cases h : jsStringLt v "7_2" <;> simp [colFlags, h]

/-- Witness for C1 (amended): the concrete column registered with `nullable`
omitted stores `some true`. -/
theorem C1_flags_amended_witness :
    ((addColumn blInit "a" tyNum {}).1).columns.map (fun c => c.meta.nullable) = [some true] := by
  have h := C1_flags_amended.1 blInit "a" tyNum {} (by rfl)
  simpa [blInit] using h

/-- C2: evaluating the code at the failing input. With columns `"a"` (always
encodes) and `"b"` (encoder fails on the value 13), the failed
`addRow(1, 13)` leaves the row-token byte and the first column's byte in the
row buffer, and a subsequent `addRow(2, 3)` succeeds and appends a complete
row after those bytes — the buffer observed by later successful operations
still contains the partially written row, with nothing refusing continuation. -/
theorem C2_failed_addRow_keeps_incomplete_row :
    make "tab" connEx rawNone = Except.ok blInit
    ∧ (addColumn (addColumn blInit "a" tyNum {}).1 "b" tyFussy {}).2 = Except.ok ()
    ∧ (addRow blTwoCols [JsVal.num 1, JsVal.num 13]).2 = Except.error "EncodingError: cannot encode value"
    ∧ ((addRow blTwoCols [JsVal.num 1, JsVal.num 13]).1).rowsData = [TOKEN_TYPE.ROW, 1]
    ∧ (addRow ((addRow blTwoCols [JsVal.num 1, JsVal.num 13]).1) [JsVal.num 2, JsVal.num 3]).2
        = Except.ok ()
    ∧ ((addRow ((addRow blTwoCols [JsVal.num 1, JsVal.num 13]).1) [JsVal.num 2, JsVal.num 3]).1).rowsData
        = [TOKEN_TYPE.ROW, 1, TOKEN_TYPE.ROW, 2, 3] :=
  ⟨rfl, rfl, rfl, rfl, rfl, rfl⟩

/-- C7: with `{lockTable: true, fireTriggers: true}` the options clause is
exactly `" WITH (FIRE_TRIGGERS,TABLOCK)"` (declared order, no stray comma)
and the bulk-insert command text ends with it; with all four flags false the
options clause is empty. -/
theorem C7_options_sql (bl bl0 : BulkLoad)
    (h : bl.bulkOptions =
      { checkConstraints := false, fireTriggers := true, keepNulls := false, lockTable := true })
    (h0 : bl0.bulkOptions =
      { checkConstraints := false, fireTriggers := false, keepNulls := false, lockTable := false }) :
    getOptionsSql bl = " WITH (FIRE_TRIGGERS,TABLOCK)"
    ∧ getBulkInsertSql bl =
        "insert bulk " ++ bl.table ++ "(" ++ bulkInsertColumnsSqlAux bl.columns true ++ ")"
          ++ " WITH (FIRE_TRIGGERS,TABLOCK)"
    ∧ getOptionsSql bl0 = "" := by
  have hOpt : getOptionsSql bl = " WITH (FIRE_TRIGGERS,TABLOCK)" := by
    simp [getOptionsSql, h]
    rfl
  refine ⟨hOpt, ?_, ?_⟩
  · simp [getBulkInsertSql, hOpt]
  · simp [getOptionsSql, h0]

/-- Witness for C7 at concrete instance states. -/
theorem C7_options_sql_witness :
    getOptionsSql blC7 = " WITH (FIRE_TRIGGERS,TABLOCK)"
    ∧ getBulkInsertSql blC7 =
        "insert bulk " ++ blC7.table ++ "(" ++ bulkInsertColumnsSqlAux blC7.columns true ++ ")"
          ++ " WITH (FIRE_TRIGGERS,TABLOCK)"
    ∧ getOptionsSql blInit = "" :=
  C7_options_sql blC7 blInit rfl rfl

/-- C8: each of the four constructor option flags defaults to `false` when
absent; if every supplied flag is absent or boolean, construction succeeds and
stores exactly the effective values; if any supplied flag is a non-boolean,
construction fails with one of the `TypeError` messages. -/
theorem C8_constructor_options (table : String) (conn : ConnOptions) (o : RawOptions) :
    ((okField o.checkConstraints = true ∧ okField o.fireTriggers = true
        ∧ okField o.keepNulls = true ∧ okField o.lockTable = true) →
      make table conn o = Except.ok {
        error := none
        canceled := false
        timeout := none
        table := table
        options := conn
        columns := []
        columnsByName := []
        firstRowWritten := false
        rowsData := []
        bulkOptions := {
          checkConstraints := optFlag o.checkConstraints
          fireTriggers := optFlag o.fireTriggers
          keepNulls := optFlag o.keepNulls
          lockTable := optFlag o.lockTable } })
    ∧ ((okField o.checkConstraints = false ∨ okField o.fireTriggers = false
        ∨ okField o.keepNulls = false ∨ okField o.lockTable = false) →
      ∃ msg, make table conn o = Except.error msg
        ∧ (msg = "The \"options.checkConstraints\" property must be of type boolean."
          ∨ msg = "The \"options.fireTriggers\" property must be of type boolean."
          ∨ msg = "The \"options.keepNulls\" property must be of type boolean."
          ∨ msg = "The \"options.lockTable\" property must be of type boolean.")) := by
  constructor
  · rintro ⟨h1, h2, h3, h4⟩
    simp [make, isBool_default, h1, h2, h3, h4, toBool_default]
  · intro hbad
    cases h1 : okField o.checkConstraints with
    | false => exact ⟨_, by simp [make, isBool_default, h1], Or.inl rfl⟩
    | true =>
      cases h2 : okField o.fireTriggers with
      | false => exact ⟨_, by simp [make, isBool_default, h1, h2], Or.inr (Or.inl rfl)⟩
      | true =>
        cases h3 : okField o.keepNulls with
        | false => exact ⟨_, by simp [make, isBool_default, h1, h2, h3], Or.inr (Or.inr (Or.inl rfl))⟩
        | true =>
          cases h4 : okField o.lockTable with
          | false =>
            exact ⟨_, by simp [make, isBool_default, h1, h2, h3, h4], Or.inr (Or.inr (Or.inr rfl))⟩
          | true => simp_all

/-- Witness for C8: a boolean flag is stored as given, absent flags default to
`false`, and a numeric flag fails construction with a `TypeError` message. -/
theorem C8_constructor_options_witness :
    make "t" connEx { checkConstraints := JsVal.bool true } = Except.ok {
      error := none
      canceled := false
      timeout := none
      table := "t"
      options := connEx
      columns := []
      columnsByName := []
      firstRowWritten := false
      rowsData := []
      bulkOptions := { checkConstraints := true, fireTriggers := false, keepNulls := false, lockTable := false } }
    ∧ ∃ msg, make "t" connEx { keepNulls := JsVal.num 3 } = Except.error msg
        ∧ (msg = "The \"options.checkConstraints\" property must be of type boolean."
          ∨ msg = "The \"options.fireTriggers\" property must be of type boolean."
          ∨ msg = "The \"options.keepNulls\" property must be of type boolean."
          ∨ msg = "The \"options.lockTable\" property must be of type boolean.") := by
  constructor
  · have h := (C8_constructor_options "t" connEx { checkConstraints := JsVal.bool true }).1
      ⟨rfl, rfl, rfl, rfl⟩
    simpa [optFlag] using h
  · exact (C8_constructor_options "t" connEx { keepNulls := JsVal.num 3 }).2
      (Or.inr (Or.inr (Or.inl rfl)))
